import Mathlib

/-!
Verification of the scenario-generator core of the Chemical_Formula repository
(`chemical_formulation_assistant.py` and `chemical_formulation_assistant_mock_reset.py`).

The Python sources are embedded shallowly:
* Python's builtin `round(x, d)` (banker's rounding, round-half-to-even) becomes
  `roundTo d` on exact rationals.
* `random.randint a b` / `random.uniform a b` / `random.choice l` become functions of
  an explicit draw argument: `randint a b s` picks the integer `a + s % (b - a + 1)`
  (always in `[a, b]`), `uniform a b u = a + (b - a) * u` follows CPython's
  implementation with `u` the result of `random()` in `[0, 1]`, and `choice l s`
  indexes `l` at `s % l.length`.  Quantifying over the draw arguments quantifies
  over every possible random outcome.
* The pandas DataFrames are embedded as column records; the external OpenAI client
  is embedded as a function producing either a response or a raised exception.
-/

namespace ChemFormula

/-- Python's builtin rounding of an exact rational to the nearest integer,
ties going to the even neighbour (banker's rounding). -/
def roundHalfEven (q : ℚ) : ℤ :=
  if q - ⌊q⌋ < 1/2 then ⌊q⌋
  else if 1/2 < q - ⌊q⌋ then ⌊q⌋ + 1
  else if ⌊q⌋ % 2 = 0 then ⌊q⌋ else ⌊q⌋ + 1

/-- Python's `round(q, d)` for a nonnegative number of decimal places `d`. -/
def roundTo (d : ℕ) (q : ℚ) : ℚ := (roundHalfEven (q * 10 ^ d) : ℚ) / 10 ^ d

/-- `random.randint(a, b)`: an integer in `[a, b]`; the draw `s` selects which one. -/
def randint (a b : ℤ) (s : ℕ) : ℤ := a + (s : ℤ) % (b - a + 1)

/-- `random.uniform(a, b) = a + (b - a) * random()`, with `u` the value of
`random()` (a number in the unit interval). -/
def uniform (a b u : ℚ) : ℚ := a + (b - a) * u

/-- `random.choice(l)` for a nonempty list: the draw `s` selects the index. -/
def choice (l : List String) (s : ℕ) : String := l.getD (s % l.length) ""

/-- Python's substring test `needle in hay` on the underlying character lists:
true iff some suffix of `hay` starts with `needle`. -/
def containsSeq (needle : List Char) : List Char → Bool
  | [] => needle.isEmpty
  | a :: t => needle.isPrefixOf (a :: t) || containsSeq needle t

/-- Python's `needle in hay` for strings. -/
def pyIn (needle hay : String) : Bool := containsSeq needle.data hay.data

/-- `check_compliance(blend_name)` (identical in both source files):
`"✔️ Compliant with REACH" if "A" in blend_name else "⚠️ Needs further review"`. -/
def check_compliance (blend_name : String) : String :=
  if pyIn ("A") blend_name then "✔️ Compliant with REACH" else "⚠️ Needs further review"

/-- `genai_summary(prompt)` (identical in both source files).  The external
chat-completion call is `call`: it either returns the response content
(`Except.ok`) or raises an exception with message `e` (`Except.error e`).
The `try/except Exception` surrounds exactly this call, so the embedding
returns the content on success and the f-string `"❌ Error: " ++ e` on failure. -/
def genai_summary (call : String → Except String String) (prompt : String) : String :=
  match call prompt with
  | Except.ok content => content
  | Except.error e => "❌ Error: " ++ e

/-- The external OpenAI v1 client object held in the module-level `client`. -/
structure OpenAIClient where
  api_key : String
  deriving DecidableEq

/-- Modelled from the external `openai` v1 library (not part of this repository):
`OpenAI(api_key=k)` stores the key when one is given, and raises `OpenAIError`
("The api_key client option must be set ...") at construction when the resolved
key is `None`. -/
def OpenAI_new (api_key : Option String) : Except String OpenAIClient :=
  match api_key with
  | some k => Except.ok ⟨k⟩
  | none => Except.error "OpenAIError: The api_key client option must be set"

/-- Module-level startup line 14 of `chemical_formulation_assistant.py`:
`client = OpenAI(api_key=os.getenv("OPENAI_API_KEY"))`, with the process
environment passed explicitly.  The line runs at import time with no
surrounding `try/except`, so a raised exception is an uncaught startup crash,
embedded as `Except.error`. -/
def startupClient (env : String → Option String) : Except String OpenAIClient :=
  OpenAI_new (env "OPENAI_API_KEY")

/-- One record of `simulate_field_metadata` (identical in both source files). -/
structure FieldMetadata where
  region : String
  reservoirDepthM : ℤ
  operator : String
  startupYear : ℤ
  deriving DecidableEq

/-- `simulate_field_metadata(field)`: the argument `field` appears in the source
but is never used; all four values come from fresh random draws. -/
def simulate_field_metadata (field : String) (s1 s2 s3 s4 : ℕ) : FieldMetadata :=
  ⟨choice ["North Sea", "Midlands", "Wales", "Scotland"] s1,
   randint 1200 4000 s2,
   choice ["BP", "Shell", "Total", "Equinor"] s3,
   randint 1980 2020 s4⟩

/-- One record of `simulate_formation_profile` (identical in both source files). -/
structure FormationProfile where
  reservoirTempC : ℚ
  pressurePsi : ℚ
  salinityPpm : ℚ
  pH : ℚ
  deriving DecidableEq

/-- `simulate_formation_profile()`: four rounded uniform draws. -/
def simulate_formation_profile (u1 u2 u3 u4 : ℚ) : FormationProfile :=
  ⟨roundTo 1 (uniform 60 120 u1),
   roundTo 0 (uniform 2000 5000 u2),
   roundTo 0 (uniform 30000 120000 u3),
   roundTo 1 (uniform 5.5 7.5 u4)⟩

/-- The fixed blend catalog `blends = ["Blend A", "Blend B", "Blend C"]`. -/
def blends : List String := ["Blend A", "Blend B", "Blend C"]

/-- The DataFrame built by `simulate_lab_tests()` in
`chemical_formulation_assistant.py`, as a record of columns. -/
structure LabTable where
  blendCol : List String
  efficacyCol : List ℤ
  corrosionCol : List ℚ
  costCol : List ℚ

/-- `simulate_lab_tests()` of `chemical_formulation_assistant.py`: the `Blend`
column is the fixed catalog; each numeric column is one independent draw per
blend (`for _ in blends`), with draw families `se`, `uc`, `ucost`. -/
def simulate_lab_tests (se : ℕ → ℕ) (uc ucost : ℕ → ℚ) : LabTable :=
  ⟨blends,
   (List.range blends.length).map (fun i => randint 70 95 (se i)),
   (List.range blends.length).map (fun i => roundTo 2 (uniform 0.1 0.5 (uc i))),
   (List.range blends.length).map (fun i => roundTo 2 (uniform 1.2 3.5 (ucost i)))⟩

/-- The DataFrame built by `simulate_lab_tests()` in
`chemical_formulation_assistant_mock_reset.py` (three extra integer columns). -/
structure LabTableMock where
  blendCol : List String
  inhibitorCol : List ℤ
  solventCol : List ℤ
  emulsifierCol : List ℤ
  efficacyCol : List ℤ
  corrosionCol : List ℚ
  costCol : List ℚ

/-- `simulate_lab_tests()` of `chemical_formulation_assistant_mock_reset.py`. -/
def simulate_lab_tests_mock (si ss semu se : ℕ → ℕ) (uc ucost : ℕ → ℚ) : LabTableMock :=
  ⟨blends,
   (List.range blends.length).map (fun i => randint 20 50 (si i)),
   (List.range blends.length).map (fun i => randint 20 40 (ss i)),
   (List.range blends.length).map (fun i => randint 10 30 (semu i)),
   (List.range blends.length).map (fun i => randint 70 95 (se i)),
   (List.range blends.length).map (fun i => roundTo 2 (uniform 0.1 0.5 (uc i))),
   (List.range blends.length).map (fun i => roundTo 2 (uniform 1.2 3.5 (ucost i)))⟩

/-- One record of `simulate_weather()` in `chemical_formulation_assistant.py`. -/
structure WeatherSample where
  temperatureC : ℤ
  windSpeedKmh : ℤ
  condition : String
  deriving DecidableEq

/-- `simulate_weather()` of `chemical_formulation_assistant.py`:
`randint(-2, 15)`, `randint(10, 45)`, `choice(["Rainy","Cloudy","Clear","Storm"])`. -/
def simulate_weather (s1 s2 s3 : ℕ) : WeatherSample :=
  ⟨randint (-2) 15 s1,
   randint 10 45 s2,
   choice ["Rainy", "Cloudy", "Clear", "Storm"] s3⟩

/-- One record of `simulate_weather()` in
`chemical_formulation_assistant_mock_reset.py` (a different shape: rounded
floats and a humidity field). -/
structure WeatherSampleMock where
  temperature : ℚ
  humidity : ℚ
  wind_speed : ℚ
  condition : String
  deriving DecidableEq

/-- `simulate_weather()` of `chemical_formulation_assistant_mock_reset.py`:
`round(uniform(10, 40), 1)`, `round(uniform(20, 80), 1)`,
`round(uniform(0, 20), 1)`, `choice(["Sunny","Cloudy","Rainy","Stormy"])`. -/
def simulate_weather_mock (u1 u2 u3 : ℚ) (s : ℕ) : WeatherSampleMock :=
  ⟨roundTo 1 (uniform 10 40 u1),
   roundTo 1 (uniform 20 80 u2),
   roundTo 1 (uniform 0 20 u3),
   choice ["Sunny", "Cloudy", "Rainy", "Stormy"] s⟩

/-- Optimizer tab (tab9, identical in both source files):
`cost = round(2.0 + (100 - ratio) * 0.02, 2)`. -/
def optimizer_cost (ratio : ℤ) : ℚ := roundTo 2 (2 + (100 - (ratio : ℚ)) * 0.02)

/-- Optimizer tab (tab9, identical in both source files):
`efficacy = round(70 + ratio * 0.2, 2)`. -/
def optimizer_efficacy (ratio : ℤ) : ℚ := roundTo 2 (70 + (ratio : ℚ) * 0.2)

/-! Helper lemmas. -/

lemma roundHalfEven_intCast (n : ℤ) : roundHalfEven (n : ℚ) = n := by
  unfold roundHalfEven
  rw [Int.floor_intCast]
  norm_num

lemma le_roundHalfEven {n : ℤ} {q : ℚ} (h : (n : ℚ) ≤ q) : n ≤ roundHalfEven q := by
  have hn : n ≤ ⌊q⌋ := Int.le_floor.mpr h
  unfold roundHalfEven
  split_ifs <;> omega

lemma roundHalfEven_le {n : ℤ} {q : ℚ} (h : q ≤ (n : ℚ)) : roundHalfEven q ≤ n := by
  have hfl : ⌊q⌋ ≤ n := by
    have := Int.floor_mono h
    rwa [Int.floor_intCast] at this
  rcases lt_or_eq_of_le hfl with hlt | heq
  · unfold roundHalfEven
    split_ifs <;> omega
  · have hq0 : q - ⌊q⌋ ≤ 0 := by
      rw [heq]
      linarith
    unfold roundHalfEven
    rw [if_pos (by linarith : q - ⌊q⌋ < 1/2)]
    exact hfl

lemma le_roundTo {d : ℕ} {m : ℤ} {q : ℚ} (h : (m : ℚ) ≤ q * 10 ^ d) :
    (m : ℚ) / 10 ^ d ≤ roundTo d q := by
  unfold roundTo
  have hpow : (0 : ℚ) < 10 ^ d := by positivity
  rw [div_le_div_iff_of_pos_right hpow]
  exact_mod_cast le_roundHalfEven h

lemma roundTo_le {d : ℕ} {m : ℤ} {q : ℚ} (h : q * 10 ^ d ≤ (m : ℚ)) :
    roundTo d q ≤ (m : ℚ) / 10 ^ d := by
  unfold roundTo
  have hpow : (0 : ℚ) < 10 ^ d := by positivity
  rw [div_le_div_iff_of_pos_right hpow]
  exact_mod_cast roundHalfEven_le h

lemma roundTo_eq_of_mul_eq {d : ℕ} {q : ℚ} {n : ℤ} (h : q * 10 ^ d = (n : ℚ)) :
    roundTo d q = (n : ℚ) / 10 ^ d := by
  unfold roundTo
  rw [h, roundHalfEven_intCast]

lemma randint_bounds {a b : ℤ} (h : a ≤ b) (s : ℕ) :
    a ≤ randint a b s ∧ randint a b s ≤ b := by
  unfold randint
  have hpos : (0 : ℤ) < b - a + 1 := by omega
  have h1 : 0 ≤ (s : ℤ) % (b - a + 1) := Int.emod_nonneg _ (by omega)
  have h2 : (s : ℤ) % (b - a + 1) < b - a + 1 := Int.emod_lt_of_pos _ hpos
  omega

lemma uniform_bounds {a b u : ℚ} (hab : a ≤ b) (h0 : 0 ≤ u) (h1 : u ≤ 1) :
    a ≤ uniform a b u ∧ uniform a b u ≤ b := by
  unfold uniform
  constructor
  · nlinarith
  · nlinarith

lemma roundTo_mem {d : ℕ} {lo hi : ℤ} {a b u : ℚ} (hab : a ≤ b) (h0 : 0 ≤ u) (h1 : u ≤ 1)
    (hlo : (lo : ℚ) ≤ a * 10 ^ d) (hhi : b * 10 ^ d ≤ (hi : ℚ)) :
    (lo : ℚ) / 10 ^ d ≤ roundTo d (uniform a b u) ∧
    roundTo d (uniform a b u) ≤ (hi : ℚ) / 10 ^ d := by
  obtain ⟨hl, hu⟩ := uniform_bounds hab h0 h1
  have hp : (0 : ℚ) ≤ 10 ^ d := by positivity
  constructor
  · apply le_roundTo
    nlinarith
  · apply roundTo_le
    nlinarith

lemma choice_mem {l : List String} (h : l ≠ []) (s : ℕ) : choice l s ∈ l := by
  unfold choice
  have hl : 0 < l.length := List.length_pos.mpr h
  have hm : s % l.length < l.length := Nat.mod_lt _ hl
  rw [List.getD_eq_getElem?_getD, List.getElem?_eq_getElem hm]
  exact List.getElem_mem hm

lemma containsSeq_iff (needle hay : List Char) :
    containsSeq needle hay = true ↔ needle <:+: hay := by
  induction hay with
  | nil =>
    simp [containsSeq, List.isEmpty_iff, List.infix_nil]
  | cons a t ih =>
    simp only [containsSeq, Bool.or_eq_true, List.isPrefixOf_iff_prefix, ih,
      List.infix_cons_iff]

lemma pyIn_iff (needle hay : String) :
    pyIn needle hay = true ↔ needle.data <:+: hay.data := by
  unfold pyIn
  exact containsSeq_iff _ _

lemma optimizer_cost_eq (r : ℤ) : optimizer_cost r = 4 - (r : ℚ) / 50 := by
  unfold optimizer_cost
  have h : (2 + (100 - (r : ℚ)) * 0.02) * 10 ^ 2 = ((400 - 2 * r : ℤ) : ℚ) := by
    push_cast
    ring
  rw [roundTo_eq_of_mul_eq h]
  push_cast
  ring

lemma optimizer_efficacy_eq (r : ℤ) : optimizer_efficacy r = 70 + (r : ℚ) / 5 := by
  unfold optimizer_efficacy
  have h : (70 + (r : ℚ) * 0.2) * 10 ^ 2 = ((7000 + 20 * r : ℤ) : ℚ) := by
    push_cast
    ring
  rw [roundTo_eq_of_mul_eq h]
  push_cast
  ring

/-! Claim theorems. -/

/-- C1: for every integer r in [0,100], the optimizer returns
cost = round(2.0 + (100 - r) * 0.02, 2) and efficacy = round(70 + r * 0.2, 2);
in particular cost at 0 is 4.0 and cost at 100 is 2.0; the function is a pure
total function of r. -/
theorem claim_C1 : ∀ r : ℤ, 0 ≤ r → r ≤ 100 →
    optimizer_cost r = roundTo 2 (2 + (100 - (r : ℚ)) * 0.02) ∧
    optimizer_efficacy r = roundTo 2 (70 + (r : ℚ) * 0.2) ∧
    optimizer_cost 0 = 4 ∧ optimizer_cost 100 = 2 := by
  intro r h0 h100
  refine ⟨rfl, rfl, ?_, ?_⟩
  · rw [optimizer_cost_eq]
    norm_num
  · rw [optimizer_cost_eq]
    norm_num

/-- Witness for C1 at r = 50. -/
theorem claim_C1_witness :
    (0 : ℤ) ≤ 50 ∧ (50 : ℤ) ≤ 100 ∧
    (optimizer_cost 50 = roundTo 2 (2 + (100 - ((50 : ℤ) : ℚ)) * 0.02) ∧
     optimizer_efficacy 50 = roundTo 2 (70 + ((50 : ℤ) : ℚ) * 0.2) ∧
     optimizer_cost 0 = 4 ∧ optimizer_cost 100 = 2) :=
  ⟨by decide, by decide, claim_C1 50 (by decide) (by decide)⟩

/-- C2: check_compliance returns the compliant verdict exactly when the blend
identifier contains "A" as a case-sensitive substring, and otherwise the
needs-review verdict; in particular "Blend A" is compliant while "Blend B" and
"Blend C" need review. -/
theorem claim_C2 :
    (∀ s : String, check_compliance s = "✔️ Compliant with REACH" ↔ ("A").data <:+: s.data) ∧
    (∀ s : String, ¬ ("A").data <:+: s.data → check_compliance s = "⚠️ Needs further review") ∧
    check_compliance ("Blend A") = "✔️ Compliant with REACH" ∧
    check_compliance ("Blend B") = "⚠️ Needs further review" ∧
    check_compliance ("Blend C") = "⚠️ Needs further review" := by
  refine ⟨?_, ?_, by decide, by decide, by decide⟩
  · intro s
    unfold check_compliance
    split_ifs with h
    · exact iff_of_true rfl ((pyIn_iff ("A") s).mp h)
    · exact iff_of_false (by decide) (fun hi => h ((pyIn_iff ("A") s).mpr hi))
  · intro s hni
    unfold check_compliance
    rw [if_neg (fun hp => hni ((pyIn_iff ("A") s).mp hp))]

/-- Witness for C2 at "Blend B". -/
theorem claim_C2_witness :
    ¬ ("A").data <:+: ("Blend B").data ∧
    check_compliance ("Blend B") = "⚠️ Needs further review" :=
  have hni : ¬ ("A").data <:+: ("Blend B").data := fun hi =>
    absurd ((pyIn_iff ("A") ("Blend B")).mpr hi) (by decide)
  ⟨hni, claim_C2.2.1 ("Blend B") hni⟩

/-- C3: for every prompt and every outcome of the external chat-completion call,
genai_summary returns a string (it is total); a success returns the content and
any raised exception is caught and returned as a string beginning with the
error-marker prefix. -/
theorem claim_C3 : ∀ (call : String → Except String String) (prompt : String),
    (∀ content, call prompt = Except.ok content → genai_summary call prompt = content) ∧
    (∀ e, call prompt = Except.error e →
      ∃ rest, genai_summary call prompt = "❌ Error: " ++ rest) := by
  intro call prompt
  constructor
  · intro content h
    unfold genai_summary
    rw [h]
  · intro e h
    refine ⟨e, ?_⟩
    unfold genai_summary
    rw [h]

/-- Witness for C3 with a call that raises. -/
theorem claim_C3_witness :
    ∃ rest, genai_summary (fun _ => Except.error ("boom")) ("p") = "❌ Error: " ++ rest :=
  (claim_C3 (fun _ => Except.error ("boom")) ("p")).2 ("boom") rfl

/-- C4 evaluation: with the API-key environment secret absent, the module-level
client construction is an uncaught error, i.e. startup crashes instead of
deferring the fault to the first advisory call. -/
theorem claim_C4 :
    startupClient (fun _ => none) =
      Except.error ("OpenAIError: The api_key client option must be set") := rfl

/-- C5: every formation profile generated from draws in the unit interval has
reservoir temperature in [60,120], pressure in [2000,5000], salinity in
[30000,120000] and pH in [5.5,7.5], after rounding. -/
theorem claim_C5 : ∀ u1 u2 u3 u4 : ℚ,
    0 ≤ u1 → u1 ≤ 1 → 0 ≤ u2 → u2 ≤ 1 → 0 ≤ u3 → u3 ≤ 1 → 0 ≤ u4 → u4 ≤ 1 →
    60 ≤ (simulate_formation_profile u1 u2 u3 u4).reservoirTempC ∧
    (simulate_formation_profile u1 u2 u3 u4).reservoirTempC ≤ 120 ∧
    2000 ≤ (simulate_formation_profile u1 u2 u3 u4).pressurePsi ∧
    (simulate_formation_profile u1 u2 u3 u4).pressurePsi ≤ 5000 ∧
    30000 ≤ (simulate_formation_profile u1 u2 u3 u4).salinityPpm ∧
    (simulate_formation_profile u1 u2 u3 u4).salinityPpm ≤ 120000 ∧
    5.5 ≤ (simulate_formation_profile u1 u2 u3 u4).pH ∧
    (simulate_formation_profile u1 u2 u3 u4).pH ≤ 7.5 := by
  intro u1 u2 u3 u4 h10 h11 h20 h21 h30 h31 h40 h41
  have hb1 := @roundTo_mem 1 600 1200 60 120 u1 (by norm_num) h10 h11 (by norm_num) (by norm_num)
  have hb2 := @roundTo_mem 0 2000 5000 2000 5000 u2 (by norm_num) h20 h21 (by norm_num) (by norm_num)
  have hb3 := @roundTo_mem 0 30000 120000 30000 120000 u3 (by norm_num) h30 h31 (by norm_num) (by norm_num)
  have hb4 := @roundTo_mem 1 55 75 5.5 7.5 u4 (by norm_num) h40 h41 (by norm_num) (by norm_num)
  refine ⟨?_, ?_, ?_, ?_, ?_, ?_, ?_, ?_⟩
  · show (60 : ℚ) ≤ roundTo 1 (uniform 60 120 u1)
    have := hb1.1
    linarith
  · show roundTo 1 (uniform 60 120 u1) ≤ (120 : ℚ)
    have := hb1.2
    linarith
  · show (2000 : ℚ) ≤ roundTo 0 (uniform 2000 5000 u2)
    have := hb2.1
    linarith
  · show roundTo 0 (uniform 2000 5000 u2) ≤ (5000 : ℚ)
    have := hb2.2
    linarith
  · show (30000 : ℚ) ≤ roundTo 0 (uniform 30000 120000 u3)
    have := hb3.1
    linarith
  · show roundTo 0 (uniform 30000 120000 u3) ≤ (120000 : ℚ)
    have := hb3.2
    linarith
  · show (5.5 : ℚ) ≤ roundTo 1 (uniform 5.5 7.5 u4)
    have := hb4.1
    linarith
  · show roundTo 1 (uniform 5.5 7.5 u4) ≤ (7.5 : ℚ)
    have := hb4.2
    linarith

/-- Witness for C5 with all draws 1/2. -/
theorem claim_C5_witness :
    (0 : ℚ) ≤ 1/2 ∧
    (60 ≤ (simulate_formation_profile (1/2) (1/2) (1/2) (1/2)).reservoirTempC ∧
     (simulate_formation_profile (1/2) (1/2) (1/2) (1/2)).reservoirTempC ≤ 120 ∧
     2000 ≤ (simulate_formation_profile (1/2) (1/2) (1/2) (1/2)).pressurePsi ∧
     (simulate_formation_profile (1/2) (1/2) (1/2) (1/2)).pressurePsi ≤ 5000 ∧
     30000 ≤ (simulate_formation_profile (1/2) (1/2) (1/2) (1/2)).salinityPpm ∧
     (simulate_formation_profile (1/2) (1/2) (1/2) (1/2)).salinityPpm ≤ 120000 ∧
     5.5 ≤ (simulate_formation_profile (1/2) (1/2) (1/2) (1/2)).pH ∧
     (simulate_formation_profile (1/2) (1/2) (1/2) (1/2)).pH ≤ 7.5) :=
  ⟨by norm_num,
   claim_C5 (1/2) (1/2) (1/2) (1/2) (by norm_num) (by norm_num) (by norm_num) (by norm_num)
     (by norm_num) (by norm_num) (by norm_num) (by norm_num)⟩

/-- C6: for every draw of the numeric columns, both lab-test generators yield
exactly 3 records whose blend identifiers are "Blend A", "Blend B", "Blend C"
in that order. -/
theorem claim_C6 : ∀ (se : ℕ → ℕ) (uc ucost : ℕ → ℚ) (si ss semu : ℕ → ℕ),
    (simulate_lab_tests se uc ucost).blendCol = ["Blend A", "Blend B", "Blend C"] ∧
    (simulate_lab_tests se uc ucost).blendCol.length = 3 ∧
    (simulate_lab_tests se uc ucost).efficacyCol.length = 3 ∧
    (simulate_lab_tests se uc ucost).corrosionCol.length = 3 ∧
    (simulate_lab_tests se uc ucost).costCol.length = 3 ∧
    (simulate_lab_tests_mock si ss semu se uc ucost).blendCol = ["Blend A", "Blend B", "Blend C"] ∧
    (simulate_lab_tests_mock si ss semu se uc ucost).inhibitorCol.length = 3 ∧
    (simulate_lab_tests_mock si ss semu se uc ucost).solventCol.length = 3 ∧
    (simulate_lab_tests_mock si ss semu se uc ucost).emulsifierCol.length = 3 ∧
    (simulate_lab_tests_mock si ss semu se uc ucost).efficacyCol.length = 3 ∧
    (simulate_lab_tests_mock si ss semu se uc ucost).corrosionCol.length = 3 ∧
    (simulate_lab_tests_mock si ss semu se uc ucost).costCol.length = 3 :=
  fun _ _ _ _ _ _ =>
    ⟨rfl, rfl, rfl, rfl, rfl, rfl, rfl, rfl, rfl, rfl, rfl, rfl⟩

/-- C7 counterexample: the weather generator of
chemical_formulation_assistant_mock_reset.py, at the concrete draws
u1 = 1/2, u2 = 0, u3 = 0, s = 0, produces temperature 25 (above 15),
wind speed 0 (below 10) and condition "Sunny" (outside the claimed enum). -/
theorem claim_C7_counterexample :
    ¬ (-2 ≤ (simulate_weather_mock (1/2) 0 0 0).temperature ∧
       (simulate_weather_mock (1/2) 0 0 0).temperature ≤ 15 ∧
       10 ≤ (simulate_weather_mock (1/2) 0 0 0).wind_speed ∧
       (simulate_weather_mock (1/2) 0 0 0).wind_speed ≤ 45 ∧
       (simulate_weather_mock (1/2) 0 0 0).condition ∈ ["Rainy", "Cloudy", "Clear", "Storm"]) := by
  intro h
  have h5 := h.2.2.2.2
  have hc : (simulate_weather_mock (1/2) 0 0 0).condition = "Sunny" := rfl
  rw [hc] at h5
  exact absurd h5 (by decide)

/-- C7 amended: every weather sample produced by the generator of
chemical_formulation_assistant.py has integer temperature in [-2,15], integer
wind speed in [10,45] and condition drawn from exactly
{Rainy, Cloudy, Clear, Storm}, for every possible random draw. -/
theorem claim_C7 : ∀ s1 s2 s3 : ℕ,
    -2 ≤ (simulate_weather s1 s2 s3).temperatureC ∧
    (simulate_weather s1 s2 s3).temperatureC ≤ 15 ∧
    10 ≤ (simulate_weather s1 s2 s3).windSpeedKmh ∧
    (simulate_weather s1 s2 s3).windSpeedKmh ≤ 45 ∧
    (simulate_weather s1 s2 s3).condition ∈ ["Rainy", "Cloudy", "Clear", "Storm"] := by
  intro s1 s2 s3
  obtain ⟨h1, h2⟩ := randint_bounds (by norm_num : (-2 : ℤ) ≤ 15) s1
  obtain ⟨h3, h4⟩ := randint_bounds (by norm_num : (10 : ℤ) ≤ 45) s2
  have h5 := @choice_mem ["Rainy", "Cloudy", "Clear", "Storm"] (by decide) s3
  exact ⟨h1, h2, h3, h4, h5⟩

/-- C8: over the integer domain [0,100], the optimizer cost strictly decreases
and the efficacy strictly increases in the inhibitor ratio, with the arithmetic
(including the round-to-2-decimals step) taken exactly. -/
theorem claim_C8 : ∀ r1 r2 : ℤ, 0 ≤ r1 → r1 < r2 → r2 ≤ 100 →
    optimizer_cost r2 < optimizer_cost r1 ∧
    optimizer_efficacy r1 < optimizer_efficacy r2 := by
  intro r1 r2 h0 hlt h100
  rw [optimizer_cost_eq, optimizer_cost_eq, optimizer_efficacy_eq, optimizer_efficacy_eq]
  have hq : (r1 : ℚ) < (r2 : ℚ) := by exact_mod_cast hlt
  constructor <;> linarith

/-- Witness for C8 at r1 = 0, r2 = 100. -/
theorem claim_C8_witness :
    (0 : ℤ) < 100 ∧
    (optimizer_cost 100 < optimizer_cost 0 ∧
     optimizer_efficacy 0 < optimizer_efficacy 100) :=
  ⟨by decide, claim_C8 0 100 (by decide) (by decide) (by decide)⟩

/-- C9: the field-metadata generator ignores its field-name argument: with the
same random draws, any two field names give identical records. -/
theorem claim_C9 : ∀ (f1 f2 : String) (s1 s2 s3 s4 : ℕ),
    simulate_field_metadata f1 s1 s2 s3 s4 = simulate_field_metadata f2 s1 s2 s3 s4 :=
  fun _ _ _ _ _ _ => rfl

/-- C10: for every integer r in [0,100], the optimizer outputs satisfy the
exact linear invariant efficacy + 10 * cost = 110, so each output determines
the other. -/
theorem claim_C10 : ∀ r : ℤ, 0 ≤ r → r ≤ 100 →
    optimizer_efficacy r + 10 * optimizer_cost r = 110 := by
  intro r h0 h100
  rw [optimizer_cost_eq, optimizer_efficacy_eq]
  ring

/-- Witness for C10 at r = 50. -/
theorem claim_C10_witness :
    (0 : ℤ) ≤ 50 ∧
    optimizer_efficacy 50 + 10 * optimizer_cost 50 = 110 :=
  ⟨by decide, claim_C10 50 (by decide) (by decide)⟩

end ChemFormula
